import Mathlib

/-!
Verification of the node-identifier pipeline (`src/node-identifier/src/lib.rs`).

The graph model, the graph rewriter (`remove_dead_nodes`, `remap_edges`), the
batch orchestrator (`handle_event`) and the content-addressed publisher
(`upload_identified_graphs`) are embedded shallowly below.  Machine integers
are modelled as `Nat` (the 32-bit arithmetic of SHA-256 carries explicit
`% 2^32` reductions); Rust `Result` values are `Except String _`; a Rust
panic (from `.expect`) is an outer `Except.error` layer, distinct from the
inner recorded `Result`.  The database-backed resolver modules
(`ip_asset_history`, `session_history`), the `graph_descriptions` crate and
the identity cache live in the repository but outside `src/`; their observable
behaviour is passed into the orchestrator as an explicit `Resolvers` record
(threading an abstract history-store/cache state), and the few graph-model
primitives the orchestrator needs are modelled from the spec, as marked.
-/

namespace NodeIdentifier

/-- A single edge of a subgraph: `Edge { edge_name, from_neighbor_key, to_neighbor_key }`. -/
structure Edge where
  edge_name : String
  from_neighbor_key : String
  to_neighbor_key : String
deriving DecidableEq, Repr

/-- An edge list, the value type of the `edges` map of a `GraphDescription`. -/
structure EdgeList where
  edges : List Edge
deriving DecidableEq, Repr

/-- A node description.  Only the key matters to the orchestrator and the
rewriter; type-specific properties never influence the verified code paths. -/
structure NodeDescription where
  node_key : String
deriving DecidableEq, Repr

/-- `GraphDescription { timestamp, nodes, edges }`.  The Rust `HashMap`s are
modelled as association lists with the map operations used by the code
(removal by key, iteration, keyed append). -/
structure GraphDescription where
  timestamp : Nat
  nodes : List (String × NodeDescription)
  edges : List (String × EdgeList)
deriving DecidableEq, Repr

/-- Modelled from the spec: §4.1 Graph Model, `new(timestamp)`: an empty
subgraph.  (`GraphDescription::new` lives in the `graph_descriptions` crate,
which is part of the repository but absent from `src/`.) -/
def GraphDescription.new (timestamp : Nat) : GraphDescription :=
  { timestamp := timestamp, nodes := [], edges := [] }

/-- Append an edge to the edge list keyed by `fromKey` in an association list,
creating the entry when absent. -/
def appendEdgeAt (fromKey : String) (e : Edge) :
    List (String × EdgeList) → List (String × EdgeList)
  | [] => [(fromKey, ⟨[e]⟩)]
  | (k, el) :: rest =>
    if k == fromKey then (k, ⟨el.edges ++ [e]⟩) :: rest
    else (k, el) :: appendEdgeAt fromKey e rest

/-- Modelled from the spec: §4.1 `add_edge(name, from, to)`: appends an edge to
the list keyed by `from`.  (`graph_descriptions` crate, absent from `src/`.) -/
def GraphDescription.add_edge (g : GraphDescription)
    (name fromKey toKey : String) : GraphDescription :=
  { g with edges := appendEdgeAt fromKey ⟨name, fromKey, toKey⟩ g.edges }

/-- Insert a node entry, overwriting an entry with the same key. -/
def insertNode (n : String × NodeDescription) :
    List (String × NodeDescription) → List (String × NodeDescription)
  | [] => [n]
  | (k, v) :: rest =>
    if k == n.1 then (k, n.2) :: rest else (k, v) :: insertNode n rest

/-- Union an edge-list entry into an association list of edge lists,
appending the edges when the key is already present. -/
def insertEdgeList (n : String × EdgeList) :
    List (String × EdgeList) → List (String × EdgeList)
  | [] => [n]
  | (k, el) :: rest =>
    if k == n.1 then (k, ⟨el.edges ++ n.2.edges⟩) :: rest
    else (k, el) :: insertEdgeList n rest

/-- Modelled from the spec: §4.1 `merge(other)`: unions nodes and edges by key.
(`graph_descriptions` crate, absent from `src/`.) -/
def GraphDescription.merge (g other : GraphDescription) : GraphDescription :=
  { g with
    nodes := other.nodes.foldl (fun acc n => insertNode n acc) g.nodes,
    edges := other.edges.foldl (fun acc n => insertEdgeList n acc) g.edges }

/-- `remove_dead_nodes` (lib.rs lines 291-309): removes every node entry whose
key is in the dead set and, for each remaining edge list, drops the edges
touching a dead endpoint.  The Rust `HashSet<String>` is modelled as a
`List String` queried through `contains`; removing each dead key from the
node map is the same as filtering the entries whose key is dead. -/
def remove_dead_nodes (dead_node_ids : List String)
    (unid_subgraph : GraphDescription) : GraphDescription :=
  { unid_subgraph with
    nodes := unid_subgraph.nodes.filter
      (fun kv => !(dead_node_ids.contains kv.1)),
    edges := unid_subgraph.edges.map (fun kv =>
      (kv.1, ⟨kv.2.edges.filter (fun e =>
        !(dead_node_ids.contains e.from_neighbor_key) &&
        !(dead_node_ids.contains e.to_neighbor_key))⟩)) }

/-- `HashMap::get` on the identity map (association list lookup). -/
def lookupKey (key_map : List (String × String)) (k : String) : Option String :=
  (key_map.find? (fun p => p.1 == k)).map (fun p => p.2)

/-- Inner loop of `remap_edges` over one edge list (lib.rs lines 319-341):
skips edges touching a dead endpoint, otherwise looks both endpoints up in the
identity map — `.expect("from_neighbor_key")` / `.expect("to_neighbor_key")`
panic when the endpoint is absent, modelled as `Except.error`. -/
def remapEdgeList (key_map : List (String × String)) (dead_node_ids : List String)
    (out : GraphDescription) : List Edge → Except String GraphDescription
  | [] => Except.ok out
  | e :: rest =>
    if dead_node_ids.contains e.from_neighbor_key then
      remapEdgeList key_map dead_node_ids out rest
    else if dead_node_ids.contains e.to_neighbor_key then
      remapEdgeList key_map dead_node_ids out rest
    else
      match lookupKey key_map e.from_neighbor_key with
      | none => Except.error "from_neighbor_key"
      | some f =>
        match lookupKey key_map e.to_neighbor_key with
        | none => Except.error "to_neighbor_key"
        | some t =>
          remapEdgeList key_map dead_node_ids
            (out.add_edge e.edge_name f t) rest

/-- Outer loop of `remap_edges` over the input subgraph's edge map. -/
def remapAll (key_map : List (String × String)) (dead_node_ids : List String)
    (out : GraphDescription) :
    List (String × EdgeList) → Except String GraphDescription
  | [] => Except.ok out
  | (_, el) :: rest =>
    match remapEdgeList key_map dead_node_ids out el.edges with
    | Except.error m => Except.error m
    | Except.ok out2 => remapAll key_map dead_node_ids out2 rest

/-- `remap_edges` (lib.rs lines 313-343): for every edge of the input not
touching a dead endpoint, rewrite both endpoints through the identity map and
append the canonical edge to the output subgraph.  A surviving endpoint absent
from the map panics (`Except.error`). -/
def remap_edges (key_map : List (String × String)) (dead_node_ids : List String)
    (input_subgraph : GraphDescription) (output_subgraph : GraphDescription) :
    Except String GraphDescription :=
  remapAll key_map dead_node_ids output_subgraph input_subgraph.edges

/-- C2: after `remove_dead_nodes`, no edge remaining in any edge list of the
subgraph has a `from_neighbor_key` or a `to_neighbor_key` in the dead set. -/
theorem remove_dead_nodes_no_dead_endpoints
    (dead_node_ids : List String) (g : GraphDescription) (k : String)
    (el : EdgeList) (e : Edge)
    (hmem : (k, el) ∈ (remove_dead_nodes dead_node_ids g).edges)
    (he : e ∈ el.edges) :
    e.from_neighbor_key ∉ dead_node_ids ∧ e.to_neighbor_key ∉ dead_node_ids := by
  unfold remove_dead_nodes at hmem
  simp only [List.mem_map, Prod.mk.injEq] at hmem
  obtain ⟨⟨k0, el0⟩, _hkv, hk, hel⟩ := hmem
  subst hk
  rw [← hel] at he
  simp only [List.mem_filter, Bool.and_eq_true, Bool.not_eq_true',
    List.contains, List.elem_eq_mem, decide_eq_false_iff_not] at he
  exact ⟨he.2.1, he.2.2⟩

/-- Concrete subgraph used by witnesses: nodes `a`, `b`, `d` with edges
`a → b` and `a → d`. -/
def pruneExampleGraph : GraphDescription :=
  { timestamp := 7,
    nodes := [("a", ⟨"a"⟩), ("b", ⟨"b"⟩), ("d", ⟨"d"⟩)],
    edges := [("a", ⟨[⟨"child", "a", "b"⟩, ⟨"child", "a", "d"⟩]⟩)] }

/-- Witness for C2 at a concrete input: with dead set `["d"]`, the surviving
edge `a → b` has neither endpoint dead. -/
theorem remove_dead_nodes_no_dead_endpoints_witness :
    ("a", EdgeList.mk [Edge.mk "child" "a" "b"]) ∈
      (remove_dead_nodes ["d"] pruneExampleGraph).edges ∧
    (Edge.mk "child" "a" "b") ∈ (EdgeList.mk [Edge.mk "child" "a" "b"]).edges ∧
    ("a" ∉ ["d"] ∧ "b" ∉ ["d"]) := by
  refine ⟨by decide, by decide, ?_⟩
  exact remove_dead_nodes_no_dead_endpoints ["d"] pruneExampleGraph "a"
    (EdgeList.mk [Edge.mk "child" "a" "b"]) (Edge.mk "child" "a" "b")
    (by decide) (by decide)

/-- Observable behaviour of the external collaborators called by
`handle_event`: `map_asset_ids_to_graph` and `map_session_ids_to_graph`
(modules `ip_asset_history` / `session_history`, in the repository but outside
`src/`, both backed by the history store) and the S3 upload performed by
`upload_identified_graphs`.  `σ` threads the history-store/cache state, which
the resolvers read and write.  Each resolver returns its `Result` plus the
data it wrote through its `&mut` arguments:
`map_asset_ids` the dead-node ids and the key-rewritten subgraph,
`map_session_ids` the identity map, the dead-node ids and the grown output
subgraph. -/
structure Resolvers (σ : Type) where
  map_asset_ids : σ → GraphDescription →
    σ × Except String Unit × List String × GraphDescription
  map_session_ids : σ → Bool → GraphDescription → GraphDescription →
    σ × Except String Unit × List (String × String) × List String × GraphDescription
  upload : GraphDescription → Except String Unit

/-- `if let e @ Err(_) = r { result = e }` — keeps the previous slot value on
`Ok`, overwrites it with the error on `Err` (lib.rs lines 153-156, 175-178,
191-194). -/
def updResult (old r : Except String Unit) : Except String Unit :=
  match r with
  | Except.error m => Except.error m
  | Except.ok _ => old

/-- One iteration of the per-event loop body (the closure of lib.rs lines
138-189 up to, and excluding, the merge into the cumulative graph): asset
resolution, pruning of asset-dead nodes, clearing of the dead set, session
resolution, and `remap_edges`.  The returned outer `Except` is a panic from
`remap_edges` (the closure never returns in that case); the `ok` payload is
the closure's recorded `Result` together with the event's output subgraph. -/
def processEvent {σ : Type} (R : Resolvers σ) (should_default : Bool) (s : σ)
    (unid_subgraph : GraphDescription) :
    σ × Except String (Except String Unit × GraphDescription) :=
  let output0 := GraphDescription.new unid_subgraph.timestamp
  match R.map_asset_ids s unid_subgraph with
  | (s1, assetResult, dead1, g1) =>
    let g2 := remove_dead_nodes dead1 g1
    match R.map_session_ids s1 should_default g2 output0 with
    | (s2, sessionResult, unid_id_map, dead2, out1) =>
      let recorded := updResult assetResult sessionResult
      match remap_edges unid_id_map dead2 g2 out1 with
      | Except.error m => (s2, Except.error m)
      | Except.ok out2 => (s2, Except.ok (recorded, out2))

/-- The per-event loop of lib.rs lines 136-195.  Arguments: resolver state,
remaining events, the mutable `result` slot, the cumulative graph, and the
trace of events whose closure ran to completion.  A panic inside an event
(outer `Except.error`) unwinds past the loop. -/
def eventLoop {σ : Type} (R : Resolvers σ) (should_default : Bool) :
    σ → List GraphDescription → Except String Unit → GraphDescription →
    List GraphDescription →
    Except String (σ × Except String Unit × GraphDescription × List GraphDescription)
  | s, [], result, total, processed => Except.ok (s, result, total, processed)
  | s, g :: rest, result, total, processed =>
    match processEvent R should_default s g with
    | (_, Except.error m) => Except.error m
    | (s1, Except.ok (r, out)) =>
      eventLoop R should_default s1 rest (updResult result r)
        (total.merge out) (processed ++ [g])

/-- The sequence of per-event recorded `Result`s, cut short at the first
panicking event. -/
def perEventResults {σ : Type} (R : Resolvers σ) (should_default : Bool) :
    σ → List GraphDescription → List (Except String Unit)
  | _, [] => []
  | s, g :: rest =>
    match processEvent R should_default s g with
    | (_, Except.error _) => []
    | (s1, Except.ok (r, _)) => r :: perEventResults R should_default s1 rest

/-- Folds the per-event result sequence through the mutable `result` slot:
the outcome is the last error of the sequence, or the initial value if none
errs. -/
def lastErr : Except String Unit → List (Except String Unit) → Except String Unit
  | acc, [] => acc
  | acc, r :: rest => lastErr (updResult acc r) rest

/-- Comparator of the batch sort (lib.rs line 131):
`a.timestamp.cmp(&b.timestamp)` ascending. -/
def tsLE (a b : GraphDescription) : Prop :=
  a.timestamp ≤ b.timestamp

instance : DecidableRel tsLE :=
  fun a b => Nat.decLe a.timestamp b.timestamp

instance : IsTotal GraphDescription tsLE :=
  ⟨fun a b => Nat.le_total a.timestamp b.timestamp⟩

instance : IsTrans GraphDescription tsLE :=
  ⟨fun _ _ _ h1 h2 => Nat.le_trans h1 h2⟩

/-- `subgraphs.sort_unstable_by(|a, b| a.timestamp.cmp(&b.timestamp))`
(lib.rs line 131), modelled as a sort producing a timestamp-sorted
permutation. -/
def sortByTimestamp (l : List GraphDescription) : List GraphDescription :=
  List.insertionSort tsLE l

deriving instance DecidableEq for Except

/-- Everything observable about one `handle_event` invocation that did not
panic: the Rust function's returned `Result` (`retval`), the graphs passed to
the publisher, whether the history-database connection was opened, whether
the tables were created, and the trace of events whose closure completed. -/
structure HandleResult where
  retval : Except String Unit
  published : List GraphDescription
  connected : Bool
  tables_created : Bool
  processed : List GraphDescription
deriving DecidableEq, Repr

/-- `handle_event` (lib.rs lines 96-200).  `connect_db` is the combined
outcome of the environment-variable reads and `Pool::new` (lines 108-115),
whose failures the `?` operator returns; a panic anywhere in the loop is the
outer `Except.error`.  The upload of line 197 is attempted on the cumulative
graph exactly where the code does, and its error is returned through `?`,
otherwise the last recorded per-event error (line 199) is returned. -/
def handle_event {σ : Type} (R : Resolvers σ) (s0 : σ)
    (connect_db : Except String Unit) (should_default : Bool)
    (subgraphs : List GraphDescription) : Except String HandleResult :=
  match subgraphs with
  | [] => Except.ok ⟨Except.ok (), [], false, false, []⟩
  | _ :: _ =>
    match connect_db with
    | Except.error e => Except.ok ⟨Except.error e, [], true, false, []⟩
    | Except.ok _ =>
      match eventLoop R should_default s0 (sortByTimestamp subgraphs)
          (Except.ok ())
          (GraphDescription.new
            (((sortByTimestamp subgraphs).headD (GraphDescription.new 0)).timestamp))
          [] with
      | Except.error m => Except.error m
      | Except.ok (_, result, total, processed) =>
        match R.upload total with
        | Except.error e => Except.ok ⟨Except.error e, [total], true, true, processed⟩
        | Except.ok _ => Except.ok ⟨result, [total], true, true, processed⟩

/-- Number of publisher calls of an invocation (zero when it panicked). -/
def publishCount : Except String HandleResult → Nat
  | Except.ok r => r.published.length
  | Except.error _ => 0

/-- Completed-event trace of an invocation (empty when it panicked). -/
def processedOf : Except String HandleResult → List GraphDescription
  | Except.ok r => r.processed
  | Except.error _ => []

/-- The Rust `Result` returned by `handle_event`; a panic is surfaced as the
panic message. -/
def retvalOf : Except String HandleResult → Except String Unit
  | Except.ok r => r.retval
  | Except.error m => Except.error m

/-- Graphs handed to the publisher by an invocation. -/
def publishedOf : Except String HandleResult → List GraphDescription
  | Except.ok r => r.published
  | Except.error _ => []

/-- Completing the per-event loop consumes every remaining event, and the
final `result` slot folds the per-event recorded results through
`updResult` (last error wins). -/
theorem eventLoop_ok_spec {σ : Type} (R : Resolvers σ) (sd : Bool)
    (l : List GraphDescription) :
    ∀ (s : σ) (result : Except String Unit) (total : GraphDescription)
      (acc : List GraphDescription) (s2 : σ) (res2 : Except String Unit)
      (t2 : GraphDescription) (proc2 : List GraphDescription),
    eventLoop R sd s l result total acc = Except.ok (s2, res2, t2, proc2) →
    proc2 = acc ++ l ∧ res2 = lastErr result (perEventResults R sd s l) := by
  induction l with
  | nil =>
    intro s result total acc s2 res2 t2 proc2 h
    simp only [eventLoop, Except.ok.injEq, Prod.mk.injEq] at h
    obtain ⟨-, hr, -, hp⟩ := h
    simp [← hr, ← hp, perEventResults, lastErr]
  | cons g rest ih =>
    intro s result total acc s2 res2 t2 proc2 h
    simp only [eventLoop] at h
    rcases hpe : processEvent R sd s g with ⟨s1, pr⟩
    rw [hpe] at h
    cases pr with
    | error m => simp at h
    | ok v =>
      rcases v with ⟨r, out⟩
      obtain ⟨hproc, hres⟩ :=
        ih s1 (updResult result r) (total.merge out) (acc ++ [g])
          s2 res2 t2 proc2 h
      constructor
      · rw [hproc]; simp
      · rw [hres]
        simp [perEventResults, hpe, lastErr]

/-- Unfolding of `handle_event` on a non-empty batch with a successful
database connection. -/
theorem handle_event_cons_eq {σ : Type} (R : Resolvers σ) (s0 : σ) (sd : Bool)
    (a : GraphDescription) (l : List GraphDescription) :
    handle_event R s0 (Except.ok ()) sd (a :: l) =
      (match eventLoop R sd s0 (sortByTimestamp (a :: l)) (Except.ok ())
          (GraphDescription.new
            (((sortByTimestamp (a :: l)).headD (GraphDescription.new 0)).timestamp))
          [] with
      | Except.error m => Except.error m
      | Except.ok (_, result, total, processed) =>
        match R.upload total with
        | Except.error e =>
          Except.ok ⟨Except.error e, [total], true, true, processed⟩
        | Except.ok _ => Except.ok ⟨result, [total], true, true, processed⟩) :=
  rfl

/-- C1 (amended): an event whose `remap_edges` hits a surviving edge endpoint
absent from the identity map panics, and the panic aborts the whole batch
loop: nothing is recorded and the remaining events — on which the outcome does
not depend — are never processed. -/
theorem eventLoop_panic_aborts_batch {σ : Type} (R : Resolvers σ) (sd : Bool)
    (s : σ) (g : GraphDescription) (rest : List GraphDescription)
    (result : Except String Unit) (total : GraphDescription)
    (acc : List GraphDescription) (m : String)
    (hp : (processEvent R sd s g).2 = Except.error m) :
    eventLoop R sd s (g :: rest) result total acc = Except.error m := by
  rcases hpe : processEvent R sd s g with ⟨s1, pr⟩
  rw [hpe] at hp
  simp only at hp
  subst hp
  simp [eventLoop, hpe]

/-- Resolvers whose asset and session phases always succeed while resolving
nothing: no dead nodes, an empty identity map, uploads succeed. -/
def noopResolvers : Resolvers Unit :=
  { map_asset_ids := fun s g => (s, Except.ok (), [], g),
    map_session_ids := fun s _ _ out => (s, Except.ok (), [], [], out),
    upload := fun _ => Except.ok () }

/-- Witness for C1 (amended) at a concrete input: the event `pruneExampleGraph`
panics under `noopResolvers` (its surviving edge `a → b` has no identity-map
entry), and the loop aborts with that panic. -/
theorem eventLoop_panic_aborts_batch_witness :
    (processEvent noopResolvers false () pruneExampleGraph).2 =
      Except.error "from_neighbor_key" ∧
    eventLoop noopResolvers false () [pruneExampleGraph, GraphDescription.new 9]
      (Except.ok ()) (GraphDescription.new 7) [] =
      Except.error "from_neighbor_key" :=
  ⟨by decide,
   eventLoop_panic_aborts_batch noopResolvers false () pruneExampleGraph
     [GraphDescription.new 9] (Except.ok ()) (GraphDescription.new 7) []
     "from_neighbor_key" (by decide)⟩

/-- C1 (counterexample to the claim as stated): a batch of two events whose
first event has a surviving edge endpoint (`"a"`) absent from the identity
map.  The claim predicts that the first event is aborted with its error
recorded and the second event still processed; instead the whole invocation
terminates with the panic — no error is recorded, no further event is
processed and nothing is published. -/
theorem remap_missing_key_panics_cex :
    handle_event noopResolvers () (Except.ok ()) false
      [pruneExampleGraph, GraphDescription.new 9] =
      Except.error "from_neighbor_key" := by
  decide

/-- C10: a batch with zero subgraphs returns `Ok(())` immediately: the
history-database connection is not opened (whatever its outcome would have
been), no tables are created, nothing is processed and nothing is
published. -/
theorem handle_event_empty_batch_noop {σ : Type} (R : Resolvers σ) (s0 : σ)
    (connect_db : Except String Unit) (sd : Bool) :
    handle_event R s0 connect_db sd [] =
      Except.ok ⟨Except.ok (), [], false, false, []⟩ :=
  rfl

/-- C6: before any event is processed the batch is sorted by timestamp
ascending, and the per-event loop then handles exactly that sorted sequence
strictly in order: the completed-event trace of a non-panicking invocation is
the sorted batch, which is non-decreasing in timestamp and a permutation of
the input batch. -/
theorem handle_event_processes_sorted_batch {σ : Type} (R : Resolvers σ)
    (s0 : σ) (sd : Bool) (subgraphs : List GraphDescription)
    (hne : subgraphs ≠ [])
    (hok : (handle_event R s0 (Except.ok ()) sd subgraphs).isOk = true) :
    processedOf (handle_event R s0 (Except.ok ()) sd subgraphs) =
      sortByTimestamp subgraphs ∧
    List.Sorted tsLE (sortByTimestamp subgraphs) ∧
    (sortByTimestamp subgraphs).Perm subgraphs := by
  cases subgraphs with
  | nil => exact absurd rfl hne
  | cons a l =>
    refine ⟨?_, List.sorted_insertionSort tsLE (a :: l),
      List.perm_insertionSort tsLE (a :: l)⟩
    cases hloop : eventLoop R sd s0 (sortByTimestamp (a :: l)) (Except.ok ())
        (GraphDescription.new
          (((sortByTimestamp (a :: l)).headD (GraphDescription.new 0)).timestamp))
        [] with
    | error m =>
      have hval : handle_event R s0 (Except.ok ()) sd (a :: l) =
          Except.error m := by
        rw [handle_event_cons_eq, hloop]
      rw [hval] at hok
      simp [Except.isOk, Except.toBool] at hok
    | ok q =>
      rcases q with ⟨s2, res, total, proc⟩
      obtain ⟨hproc, -⟩ :=
        eventLoop_ok_spec R sd (sortByTimestamp (a :: l)) s0 (Except.ok ()) _ []
          s2 res total proc hloop
      cases hup : R.upload total with
      | error e =>
        have hval : handle_event R s0 (Except.ok ()) sd (a :: l) =
            Except.ok ⟨Except.error e, [total], true, true, proc⟩ := by
          rw [handle_event_cons_eq, hloop]; simp [hup]
        rw [hval]
        simp [processedOf, hproc]
      | ok u =>
        have hval : handle_event R s0 (Except.ok ()) sd (a :: l) =
            Except.ok ⟨res, [total], true, true, proc⟩ := by
          rw [handle_event_cons_eq, hloop]; simp [hup]
        rw [hval]
        simp [processedOf, hproc]

/-- Resolvers whose session phase always fails with an error naming the
event's timestamp, resolving nothing; uploads succeed. -/
def failingSessionResolvers : Resolvers Unit :=
  { map_asset_ids := fun s g => (s, Except.ok (), [], g),
    map_session_ids := fun s _ g out =>
      (s, Except.error ("session-fail-" ++ Nat.repr g.timestamp), [], [], out),
    upload := fun _ => Except.ok () }

/-- Witness for C6 at a concrete input: a batch delivered as timestamps
`[5, 2]` is processed as `[2, 5]` even though both events record errors. -/
theorem handle_event_processes_sorted_batch_witness :
    ([GraphDescription.new 5, GraphDescription.new 2] ≠ []) ∧
    ((handle_event failingSessionResolvers () (Except.ok ()) false
      [GraphDescription.new 5, GraphDescription.new 2]).isOk = true) ∧
    (processedOf (handle_event failingSessionResolvers () (Except.ok ()) false
        [GraphDescription.new 5, GraphDescription.new 2]) =
      sortByTimestamp [GraphDescription.new 5, GraphDescription.new 2] ∧
    List.Sorted tsLE
      (sortByTimestamp [GraphDescription.new 5, GraphDescription.new 2]) ∧
    (sortByTimestamp [GraphDescription.new 5, GraphDescription.new 2]).Perm
      [GraphDescription.new 5, GraphDescription.new 2]) :=
  ⟨by decide, by decide,
   handle_event_processes_sorted_batch failingSessionResolvers () false
     [GraphDescription.new 5, GraphDescription.new 2] (by decide) (by decide)⟩

/-- C3: an invocation on a non-empty batch that runs to completion hands the
cumulative merged graph to the publisher exactly once, whatever the per-event
recorded results were (the resolvers are universally quantified, so any
combination of per-event failures is covered). -/
theorem handle_event_publishes_exactly_once {σ : Type} (R : Resolvers σ)
    (s0 : σ) (sd : Bool) (subgraphs : List GraphDescription)
    (hne : subgraphs ≠ [])
    (hok : (handle_event R s0 (Except.ok ()) sd subgraphs).isOk = true) :
    publishCount (handle_event R s0 (Except.ok ()) sd subgraphs) = 1 := by
  cases subgraphs with
  | nil => exact absurd rfl hne
  | cons a l =>
    cases hloop : eventLoop R sd s0 (sortByTimestamp (a :: l)) (Except.ok ())
        (GraphDescription.new
          (((sortByTimestamp (a :: l)).headD (GraphDescription.new 0)).timestamp))
        [] with
    | error m =>
      have hval : handle_event R s0 (Except.ok ()) sd (a :: l) =
          Except.error m := by
        rw [handle_event_cons_eq, hloop]
      rw [hval] at hok
      simp [Except.isOk, Except.toBool] at hok
    | ok q =>
      rcases q with ⟨s2, res, total, proc⟩
      cases hup : R.upload total with
      | error e =>
        have hval : handle_event R s0 (Except.ok ()) sd (a :: l) =
            Except.ok ⟨Except.error e, [total], true, true, proc⟩ := by
          rw [handle_event_cons_eq, hloop]; simp [hup]
        rw [hval]
        simp [publishCount]
      | ok u =>
        have hval : handle_event R s0 (Except.ok ()) sd (a :: l) =
            Except.ok ⟨res, [total], true, true, proc⟩ := by
          rw [handle_event_cons_eq, hloop]; simp [hup]
        rw [hval]
        simp [publishCount]

/-- Witness for C3 at a concrete input: both events record errors, yet the
merged graph is handed to the publisher exactly once. -/
theorem handle_event_publishes_exactly_once_witness :
    ([GraphDescription.new 5, GraphDescription.new 2] ≠ []) ∧
    ((handle_event failingSessionResolvers () (Except.ok ()) false
      [GraphDescription.new 5, GraphDescription.new 2]).isOk = true) ∧
    publishCount (handle_event failingSessionResolvers () (Except.ok ()) false
      [GraphDescription.new 5, GraphDescription.new 2]) = 1 :=
  ⟨by decide, by decide,
   handle_event_publishes_exactly_once failingSessionResolvers () false
     [GraphDescription.new 5, GraphDescription.new 2] (by decide) (by decide)⟩

/-- C4 (amended): on an invocation that runs to completion, per-event recorded
errors never stop the loop — the completed-event trace is the whole sorted
batch — and the returned value is the last recorded per-event error unless the
publisher fails, in which case the publisher's error is returned
(invocation-fatal).  The claim's statement that *only* the publisher's failure
is invocation-fatal is refuted separately: a remap panic is also fatal. -/
theorem handle_event_error_isolation {σ : Type} (R : Resolvers σ) (s0 : σ)
    (sd : Bool) (subgraphs : List GraphDescription)
    (hne : subgraphs ≠ [])
    (hok : (handle_event R s0 (Except.ok ()) sd subgraphs).isOk = true) :
    processedOf (handle_event R s0 (Except.ok ()) sd subgraphs) =
      sortByTimestamp subgraphs ∧
    retvalOf (handle_event R s0 (Except.ok ()) sd subgraphs) =
      updResult
        (lastErr (Except.ok ())
          (perEventResults R sd s0 (sortByTimestamp subgraphs)))
        (R.upload
          ((publishedOf (handle_event R s0 (Except.ok ()) sd subgraphs)).headD
            (GraphDescription.new 0))) := by
  cases subgraphs with
  | nil => exact absurd rfl hne
  | cons a l =>
    cases hloop : eventLoop R sd s0 (sortByTimestamp (a :: l)) (Except.ok ())
        (GraphDescription.new
          (((sortByTimestamp (a :: l)).headD (GraphDescription.new 0)).timestamp))
        [] with
    | error m =>
      have hval : handle_event R s0 (Except.ok ()) sd (a :: l) =
          Except.error m := by
        rw [handle_event_cons_eq, hloop]
      rw [hval] at hok
      simp [Except.isOk, Except.toBool] at hok
    | ok q =>
      rcases q with ⟨s2, res, total, proc⟩
      obtain ⟨hproc, hres⟩ :=
        eventLoop_ok_spec R sd (sortByTimestamp (a :: l)) s0 (Except.ok ()) _ []
          s2 res total proc hloop
      cases hup : R.upload total with
      | error e =>
        have hval : handle_event R s0 (Except.ok ()) sd (a :: l) =
            Except.ok ⟨Except.error e, [total], true, true, proc⟩ := by
          rw [handle_event_cons_eq, hloop]; simp [hup]
        rw [hval]
        simp [processedOf, retvalOf, publishedOf, hproc, hup, updResult]
      | ok u =>
        have hval : handle_event R s0 (Except.ok ()) sd (a :: l) =
            Except.ok ⟨res, [total], true, true, proc⟩ := by
          rw [handle_event_cons_eq, hloop]; simp [hup]
        rw [hval]
        simp [processedOf, retvalOf, publishedOf, hproc, hup, updResult, hres]

/-- Resolvers that resolve nothing and whose publisher always fails. -/
def failingUploadResolvers : Resolvers Unit :=
  { map_asset_ids := fun s g => (s, Except.ok (), [], g),
    map_session_ids := fun s _ _ out => (s, Except.ok (), [], [], out),
    upload := fun _ => Except.error "upload-fail" }

/-- Witness for C4 (amended) at a concrete input: the event completes without
a recorded error, the publisher fails, and the invocation returns the
publisher's error. -/
theorem handle_event_error_isolation_witness :
    ([GraphDescription.new 4] ≠ []) ∧
    ((handle_event failingUploadResolvers () (Except.ok ()) false
      [GraphDescription.new 4]).isOk = true) ∧
    (processedOf (handle_event failingUploadResolvers () (Except.ok ()) false
        [GraphDescription.new 4]) =
      sortByTimestamp [GraphDescription.new 4] ∧
    retvalOf (handle_event failingUploadResolvers () (Except.ok ()) false
        [GraphDescription.new 4]) =
      updResult
        (lastErr (Except.ok ())
          (perEventResults failingUploadResolvers false ()
            (sortByTimestamp [GraphDescription.new 4])))
        (failingUploadResolvers.upload
          ((publishedOf (handle_event failingUploadResolvers () (Except.ok ())
            false [GraphDescription.new 4])).headD (GraphDescription.new 0)))) :=
  ⟨by decide, by decide,
   handle_event_error_isolation failingUploadResolvers () false
     [GraphDescription.new 4] (by decide) (by decide)⟩

/-- A subgraph whose only edge is `a → b`, both endpoints alive. -/
def edgeOnlyGraph : GraphDescription :=
  { timestamp := 3,
    nodes := [("a", ⟨"a"⟩), ("b", ⟨"b"⟩)],
    edges := [("a", ⟨[⟨"child", "a", "b"⟩]⟩)] }

/-- Resolvers whose identity map covers `"a"` but not `"b"`; every store call
succeeds and the publisher never fails. -/
def partialMapResolvers : Resolvers Unit :=
  { map_asset_ids := fun s g => (s, Except.ok (), [], g),
    map_session_ids := fun s _ _ out => (s, Except.ok (), [("a", "A")], [], out),
    upload := fun _ => Except.ok () }

/-- C4 (counterexample to the claim as stated): under resolvers whose
publisher never fails, an invocation still dies fatally — the surviving edge
endpoint `"b"` is absent from the identity map and the `.expect`
panic aborts the whole invocation before anything is published, so the
publisher's failure is not the only invocation-fatal failure. -/
theorem nonpublisher_fatal_failure_cex :
    handle_event partialMapResolvers () (Except.ok ()) false [edgeOnlyGraph] =
      Except.error "to_neighbor_key" := by
  decide

/-- C5: when the publish succeeds and at least one event failed, the value
returned by `handle_event` is the error recorded for the last failing event
(earlier recorded errors are overwritten in the single `result` slot), even
though the merged graph was still handed to the publisher. -/
theorem handle_event_returns_last_event_error {σ : Type} (R : Resolvers σ)
    (s0 : σ) (sd : Bool) (subgraphs : List GraphDescription) (em : String)
    (hne : subgraphs ≠ [])
    (hup : ∀ g, R.upload g = Except.ok ())
    (hok : (handle_event R s0 (Except.ok ()) sd subgraphs).isOk = true)
    (hlast : lastErr (Except.ok ())
      (perEventResults R sd s0 (sortByTimestamp subgraphs)) = Except.error em) :
    retvalOf (handle_event R s0 (Except.ok ()) sd subgraphs) = Except.error em ∧
    publishCount (handle_event R s0 (Except.ok ()) sd subgraphs) = 1 := by
  cases subgraphs with
  | nil => exact absurd rfl hne
  | cons a l =>
    cases hloop : eventLoop R sd s0 (sortByTimestamp (a :: l)) (Except.ok ())
        (GraphDescription.new
          (((sortByTimestamp (a :: l)).headD (GraphDescription.new 0)).timestamp))
        [] with
    | error m =>
      have hval : handle_event R s0 (Except.ok ()) sd (a :: l) =
          Except.error m := by
        rw [handle_event_cons_eq, hloop]
      rw [hval] at hok
      simp [Except.isOk, Except.toBool] at hok
    | ok q =>
      rcases q with ⟨s2, res, total, proc⟩
      obtain ⟨-, hres⟩ :=
        eventLoop_ok_spec R sd (sortByTimestamp (a :: l)) s0 (Except.ok ()) _ []
          s2 res total proc hloop
      have hval : handle_event R s0 (Except.ok ()) sd (a :: l) =
          Except.ok ⟨res, [total], true, true, proc⟩ := by
        rw [handle_event_cons_eq, hloop]; simp [hup total]
      rw [hval]
      rw [hlast] at hres
      simp [retvalOf, publishCount, hres]

/-- Witness for C5 at a concrete input: both events record errors
(`session-fail-2`, then `session-fail-5`); the invocation returns the later
one while still publishing the merged graph once. -/
theorem handle_event_returns_last_event_error_witness :
    ([GraphDescription.new 5, GraphDescription.new 2] ≠ []) ∧
    ((handle_event failingSessionResolvers () (Except.ok ()) false
      [GraphDescription.new 5, GraphDescription.new 2]).isOk = true) ∧
    (lastErr (Except.ok ())
      (perEventResults failingSessionResolvers false ()
        (sortByTimestamp [GraphDescription.new 5, GraphDescription.new 2])) =
      Except.error "session-fail-5") ∧
    (retvalOf (handle_event failingSessionResolvers () (Except.ok ()) false
        [GraphDescription.new 5, GraphDescription.new 2]) =
      Except.error "session-fail-5" ∧
    publishCount (handle_event failingSessionResolvers () (Except.ok ()) false
      [GraphDescription.new 5, GraphDescription.new 2]) = 1) :=
  ⟨by decide, by decide, by decide,
   handle_event_returns_last_event_error failingSessionResolvers () false
     [GraphDescription.new 5, GraphDescription.new 2] "session-fail-5"
     (by decide) (fun _ => rfl) (by decide) (by decide)⟩

/-! The content-addressed publisher (`upload_identified_graphs`, lib.rs lines
345-391).  The SHA-256 digest (`sha2` crate) and the base-58 rendering
(`base58` crate) are implemented concretely below, on bytes modelled as
`Nat`s below 256 with explicit `% 2^32` reductions for the 32-bit words. -/

/-- Reduce to a 32-bit word. -/
def w32 (n : Nat) : Nat := n % 4294967296

/-- 32-bit addition. -/
def add32 (a b : Nat) : Nat := (a + b) % 4294967296

/-- 32-bit right rotation by `n` bits. -/
def rotr32 (n x : Nat) : Nat :=
  ((x >>> n) ||| (x <<< (32 - n))) % 4294967296

/-- The first sixty-four primes, the seeds of the SHA-256 constants. -/
def sixtyFourPrimes : List Nat :=
  [2, 3, 5, 7, 11, 13, 17, 19, 23, 29, 31, 37, 41, 43, 47, 53,
   59, 61, 67, 71, 73, 79, 83, 89, 97, 101, 103, 107, 109, 113, 127, 131,
   137, 139, 149, 151, 157, 163, 167, 173, 179, 181, 191, 193, 197, 199, 211, 223,
   227, 229, 233, 239, 241, 251, 257, 263, 269, 271, 277, 281, 283, 293, 307, 311]

/-- Bisection step for the integer cube root: keeps `lo ^ 3 ≤ n < hi ^ 3`. -/
def cbrtSearch (n : Nat) : Nat → Nat → Nat → Nat
  | 0, lo, _ => lo
  | fuel + 1, lo, hi =>
    let mid := (lo + hi + 1) / 2
    if mid * mid * mid ≤ n then cbrtSearch n fuel mid hi
    else cbrtSearch n fuel lo mid

/-- Integer cube root of numbers below `2 ^ 120`. -/
def icbrt (n : Nat) : Nat :=
  cbrtSearch n 64 0 (2 ^ 40)

/-- The 64 SHA-256 round constants (FIPS 180-4 §4.2.2): the first 32 bits of
the fractional part of the cube root of each of the first sixty-four
primes. -/
def shaK : List Nat :=
  sixtyFourPrimes.map (fun p => icbrt (p * 2 ^ 96) % 2 ^ 32)

/-- The SHA-256 initial hash value (FIPS 180-4 §5.3.3): the first 32 bits of
the fractional part of the square root of each of the first eight primes. -/
def shaH0 : List Nat :=
  (sixtyFourPrimes.take 8).map (fun p => Nat.sqrt (p * 2 ^ 64) % 2 ^ 32)

/-- SHA-256 padding: append `0x80`, zeros to 56 mod 64, then the bit length
as 8 big-endian bytes. -/
def padMessage (msg : List Nat) : List Nat :=
  let len := msg.length
  let k := (64 + 56 - (len + 1) % 64) % 64
  let bitLen := 8 * len
  msg ++ [128] ++ List.replicate k 0 ++
    (List.range 8).map (fun i => (bitLen >>> (8 * (7 - i))) % 256)

/-- Big-endian word from up to four bytes. -/
def bytesToWord (l : List Nat) : Nat :=
  l.foldl (fun a b => a * 256 + b % 256) 0

/-- The sixteen 32-bit words of block number `blk` of a padded message. -/
def blockWords (padded : List Nat) (blk : Nat) : Array Nat :=
  Array.mk ((List.range 16).map (fun i =>
    bytesToWord ((padded.drop (64 * blk + 4 * i)).take 4)))

/-- SHA-256 message schedule: extend sixteen words to sixty-four. -/
def schedule (w0 : Array Nat) : Array Nat :=
  (List.range 48).foldl (fun w t =>
    let i := t + 16
    let x15 := w.getD (i - 15) 0
    let x2 := w.getD (i - 2) 0
    let s0 := (rotr32 7 x15) ^^^ (rotr32 18 x15) ^^^ (x15 >>> 3)
    let s1 := (rotr32 17 x2) ^^^ (rotr32 19 x2) ^^^ (x2 >>> 10)
    w.push (add32 (add32 (w.getD (i - 16) 0) s0) (add32 (w.getD (i - 7) 0) s1)))
    w0

/-- One SHA-256 compression round over the eight-word state. -/
def shaRound (w : Array Nat)
    (st : Nat × Nat × Nat × Nat × Nat × Nat × Nat × Nat) (t : Nat) :
    Nat × Nat × Nat × Nat × Nat × Nat × Nat × Nat :=
  match st with
  | (a, b, c, d, e, f, g, hh) =>
    let s1 := (rotr32 6 e) ^^^ (rotr32 11 e) ^^^ (rotr32 25 e)
    let ch := (e &&& f) ^^^ ((e ^^^ 4294967295) &&& g)
    let t1 := add32 hh (add32 s1 (add32 ch
      (add32 (shaK.getD t 0) (w.getD t 0))))
    let s0 := (rotr32 2 a) ^^^ (rotr32 13 a) ^^^ (rotr32 22 a)
    let mj := (a &&& b) ^^^ (a &&& c) ^^^ (b &&& c)
    let t2 := add32 s0 mj
    (add32 t1 t2, a, b, c, add32 d t1, e, f, g)

/-- SHA-256 compression of one block into the running hash. -/
def compressBlock (h : List Nat) (w : Array Nat) : List Nat :=
  let h0 := h.getD 0 0
  let h1 := h.getD 1 0
  let h2 := h.getD 2 0
  let h3 := h.getD 3 0
  let h4 := h.getD 4 0
  let h5 := h.getD 5 0
  let h6 := h.getD 6 0
  let h7 := h.getD 7 0
  match (List.range 64).foldl (shaRound w)
      (h0, h1, h2, h3, h4, h5, h6, h7) with
  | (a, b, c, d, e, f, g, hh) =>
    [add32 h0 a, add32 h1 b, add32 h2 c, add32 h3 d,
     add32 h4 e, add32 h5 f, add32 h6 g, add32 h7 hh]

/-- Big-endian bytes of a 32-bit word. -/
def wordBytes (w : Nat) : List Nat :=
  [(w >>> 24) % 256, (w >>> 16) % 256, (w >>> 8) % 256, w % 256]

/-- SHA-256 of a byte sequence (FIPS 180-4), the digest as 32 bytes. -/
def sha256 (msg : List Nat) : List Nat :=
  let padded := padMessage msg
  let final := (List.range (padded.length / 64)).foldl
    (fun h blk => compressBlock h (schedule (blockWords padded blk))) shaH0
  final.foldr (fun w acc => wordBytes w ++ acc) []

/-- The Bitcoin base-58 alphabet used by the `base58` crate. -/
def base58Alphabet : List Char :=
  "123456789ABCDEFGHJKLMNPQRSTUVWXYZabcdefghijkmnopqrstuvwxyz".toList

/-- Base-58 digits of a number, most significant first. -/
def base58Digits (n : Nat) : List Nat :=
  if n < 58 then [n]
  else base58Digits (n / 58) ++ [n % 58]
decreasing_by exact Nat.div_lt_self (by omega) (by omega)

/-- `[u8]::to_base58` of the `base58` crate: leading zero bytes render as
`'1'`, the rest as the big-endian base-58 digits of the byte string's value. -/
def toBase58 (bytes : List Nat) : String :=
  let zeros := (bytes.takeWhile (fun b => b == 0)).length
  let n := bytes.foldl (fun a b => a * 256 + b % 256) 0
  let digits := if n = 0 then [] else base58Digits n
  String.mk (List.replicate zeros '1' ++
    digits.map (fun d => base58Alphabet.getD d '1'))

/-- Padded byte rendering of a string. -/
def encodeStr (s : String) : List Nat :=
  s.length :: (s.toList.map (fun c => c.toNat % 256))

/-- Big-endian 8-byte rendering of a number. -/
def natBytes8 (n : Nat) : List Nat :=
  (List.range 8).map (fun i => (n >>> (8 * (7 - i))) % 256)

/-- Modelled from the spec: §4.7 "Serializes the cumulative graph with a
deterministic binary encoding" — the deterministic `prost` encoding invoked
as `subgraph.encode(&mut body)` lives in the `graph_descriptions` crate,
absent from `src/`. -/
def encodeGraph (g : GraphDescription) : List Nat :=
  natBytes8 g.timestamp ++
  natBytes8 g.nodes.length ++
  g.nodes.foldr (fun kv acc =>
    encodeStr kv.1 ++ encodeStr kv.2.node_key ++ acc) [] ++
  natBytes8 g.edges.length ++
  g.edges.foldr (fun kv acc =>
    encodeStr kv.1 ++ natBytes8 kv.2.edges.length ++
    kv.2.edges.foldr (fun e acc2 =>
      encodeStr e.edge_name ++ encodeStr e.from_neighbor_key ++
      encodeStr e.to_neighbor_key ++ acc2) [] ++ acc) []

/-- The S3 `PutObjectRequest` fields set by `upload_identified_graphs`. -/
structure PutObjectRequest where
  bucket : String
  key : String
  body : List Nat
deriving DecidableEq, Repr

/-- `upload_identified_graphs` (lib.rs lines 345-391), up to the S3 call: the
graph is encoded, the encoding compressed (`zstd`, modelled as the function
parameter `compress`), the SHA-256 digest of the *uncompressed* encoding is
rendered in base-58 as the object name, and the key prefixes it with the
epoch-seconds day bucket `epoch - epoch % 86400` taken from the wall clock
(`SystemTime::now`, modelled as the parameter `epoch`).  `bucketPre` is the
`BUCKET_PREFIX` environment variable. -/
def upload_identified_graphs_request (compress : List Nat → List Nat)
    (bucketPre : String) (epoch : Nat) (g : GraphDescription) :
    PutObjectRequest :=
  let body := encodeGraph g
  let compressed := compress body
  let objectName := toBase58 (sha256 body)
  let day := epoch - epoch % 86400
  { bucket := bucketPre ++ "-subgraphs-generated-bucket",
    key := Nat.repr day ++ "/" ++ objectName,
    body := compressed }

/-- C7 (amended): the published object key is
`"<day-bucket>/<base-58 SHA-256 of the uncompressed encoding>"` with the day
bucket `epoch - epoch % 86400`; the key does not depend on the compression
function, and publishing the same graph twice yields the same key whenever the
two publishes fall in the same day bucket. -/
theorem upload_key_day_bucket_content_hash
    (compress compress2 : List Nat → List Nat) (bucketPre : String)
    (e1 e2 : Nat) (g : GraphDescription)
    (hday : e1 / 86400 = e2 / 86400) :
    (upload_identified_graphs_request compress bucketPre e1 g).key =
      Nat.repr (e1 - e1 % 86400) ++ "/" ++ toBase58 (sha256 (encodeGraph g)) ∧
    (upload_identified_graphs_request compress bucketPre e1 g).key =
      (upload_identified_graphs_request compress2 bucketPre e2 g).key := by
  have h1 := Nat.div_add_mod e1 86400
  have h2 := Nat.div_add_mod e2 86400
  have hsub : e1 - e1 % 86400 = e2 - e2 % 86400 := by omega
  refine ⟨rfl, ?_⟩
  show Nat.repr (e1 - e1 % 86400) ++ "/" ++ toBase58 (sha256 (encodeGraph g)) =
    Nat.repr (e2 - e2 % 86400) ++ "/" ++ toBase58 (sha256 (encodeGraph g))
  rw [hsub]

/-- Witness for C7 (amended) at a concrete input: publishes at epochs 100 and
200 (same day bucket), under two different compression functions, produce the
same key. -/
theorem upload_key_day_bucket_content_hash_witness :
    (100 / 86400 = 200 / 86400) ∧
    ((upload_identified_graphs_request (fun b => b) "p" 100
        (GraphDescription.new 1)).key =
      Nat.repr (100 - 100 % 86400) ++ "/" ++
        toBase58 (sha256 (encodeGraph (GraphDescription.new 1))) ∧
    (upload_identified_graphs_request (fun b => b) "p" 100
        (GraphDescription.new 1)).key =
      (upload_identified_graphs_request (fun b => List.replicate b.length 0)
        "p" 200 (GraphDescription.new 1)).key) :=
  ⟨by decide,
   upload_key_day_bucket_content_hash (fun b => b)
     (fun b => List.replicate b.length 0) "p" 100 200
     (GraphDescription.new 1) (by decide)⟩

/-- C7 (counterexample to the claim as stated): the day bucket comes from the
wall clock at publish time, so publishing the very same canonical graph bytes
at epoch 0 and at epoch 86400 yields two different object keys — the claim
that the same bytes always yield the same key is false across day buckets. -/
theorem upload_key_differs_across_days_cex :
    (upload_identified_graphs_request (fun b => b) "p" 0
      (GraphDescription.new 1)).key ≠
    (upload_identified_graphs_request (fun b => b) "p" 86400
      (GraphDescription.new 1)).key := by
  intro heq
  have h0 : (upload_identified_graphs_request (fun b => b) "p" 0
      (GraphDescription.new 1)).key =
      Nat.repr 0 ++ "/" ++
        toBase58 (sha256 (encodeGraph (GraphDescription.new 1))) := rfl
  have h1 : (upload_identified_graphs_request (fun b => b) "p" 86400
      (GraphDescription.new 1)).key =
      Nat.repr 86400 ++ "/" ++
        toBase58 (sha256 (encodeGraph (GraphDescription.new 1))) := rfl
  rw [h0, h1] at heq
  have hlen := congrArg String.length heq
  simp only [String.length_append] at hlen
  have ha : (Nat.repr 0).length = 1 := by decide
  have hb : (Nat.repr 86400).length = 5 := by decide
  omega

/-! The two externally selectable entry points (`handler`, lib.rs lines
203-244, and `retry_handler`, lines 246-287). -/

/-- The construction parameters an entry point fixes before handing the
pipeline to the SQS service: the identity-cache capacity (`max_count`), its
time to live in seconds, its pepper, the `should_default` flag passed to
`NodeIdentifier::new`, and the AWS region. -/
structure EntryConfig where
  cache_max_count : Nat
  cache_ttl_secs : Nat
  cache_pepper : String
  should_default : Bool
  region : String
deriving DecidableEq, Repr

/-- `handler` (lib.rs lines 203-244): `max_count = 100_000`,
`time_to_live = Duration::from_secs(60 * 5)`, pepper `b"pepper"`,
`NodeIdentifier::new(lru_cache, false)`, region `UsEast1`. -/
def handler_config : EntryConfig :=
  { cache_max_count := 100000,
    cache_ttl_secs := 60 * 5,
    cache_pepper := "pepper",
    should_default := false,
    region := "UsEast1" }

/-- `retry_handler` (lib.rs lines 246-287): identical construction except
`NodeIdentifier::new(lru_cache, true)`. -/
def retry_handler_config : EntryConfig :=
  { cache_max_count := 100000,
    cache_ttl_secs := 60 * 5,
    cache_pepper := "pepper",
    should_default := true,
    region := "UsEast1" }

/-- C8: the normal entry point constructs the pipeline with fabrication
disabled (`should_default = false`), the retry entry point with fabrication
enabled (`should_default = true`), and every other construction parameter of
the two entry points is identical — the mode flag is the single behavioural
switch between them. -/
theorem entry_points_differ_only_in_mode :
    handler_config.should_default = false ∧
    retry_handler_config.should_default = true ∧
    { handler_config with should_default := true } = retry_handler_config := by
  decide

/-- C9: both entry points construct the identity cache with a capacity of
100,000 entries and a time to live of five minutes (300 seconds). -/
theorem entry_points_cache_params :
    handler_config.cache_max_count = 100000 ∧
    handler_config.cache_ttl_secs = 300 ∧
    retry_handler_config.cache_max_count = 100000 ∧
    retry_handler_config.cache_ttl_secs = 300 := by
  decide

end NodeIdentifier
